import Mathlib

/-!
Verification of the todo-api authentication/authorization core and the
cursor-based list pagination logic, as a shallow embedding in Lean 4.

The embedding covers:
* `internal/middleware/jwks.go` — the JWKS key-set cache (`JWKSClient.GetKey`,
  `refresh`, `parseRSAPublicKey`), with network fetch outcomes passed in
  explicitly and the number of performed fetches reported in the result;
* `internal/middleware/auth.go` — the auth middleware (`Middleware`,
  `handleDevMode`, `handleJWT`, `writeAuthError`), with the golang-jwt v5
  parser pipeline (`jwt.Parse` with `WithValidMethods(["RS256"])`,
  `WithIssuer`, `WithAudience`) modelled structurally over decoded tokens;
* Go's `path.Clean` (used for the auth-exempt path check);
* `internal/repository` `PostgresTodoRepository.List` over a modelled table
  of rows, together with the `limit` query-parameter handling of
  `TodoHandler.handleList` and Go's `strconv.Atoi`.

Machine integers are modelled as `Nat`/`Int`; Go slices that distinguish
`nil` from empty are modelled as `Option (List _)`; fallible operations
return `Except`/`Option`.
-/

/-! ## Base64url decoding (Go `encoding/base64` RawURLEncoding) -/

/-- Value of one base64url alphabet character (`A-Z a-z 0-9 - _`),
`none` for a character outside the alphabet. -/
def b64urlVal (c : Char) : Option Nat :=
  if 'A' ≤ c ∧ c ≤ 'Z' then some (c.toNat - 65)
  else if 'a' ≤ c ∧ c ≤ 'z' then some (c.toNat - 97 + 26)
  else if '0' ≤ c ∧ c ≤ '9' then some (c.toNat - 48 + 52)
  else if c = '-' then some 62
  else if c = '_' then some 63
  else none

/-- Pack 6-bit groups into bytes: 4 values give 3 bytes, a trailing pair
gives 1 byte and a trailing triple gives 2 bytes (unpadded decoding). -/
def b64Pack : List Nat → List Nat
  | a :: b :: c :: d :: rest =>
      (a * 4 + b / 16) :: ((b % 16) * 16 + c / 4) :: ((c % 4) * 64 + d) :: b64Pack rest
  | [a, b] => [a * 4 + b / 16]
  | [a, b, c] => [a * 4 + b / 16, (b % 16) * 16 + c / 4]
  | _ => []

/-- Go `base64.RawURLEncoding.DecodeString`: unpadded base64url. Fails on a
length that is 1 mod 4 or on any character outside the alphabet. -/
def b64urlDecode (s : String) : Option (List Nat) :=
  let cs := s.toList
  if cs.length % 4 = 1 then none
  else (cs.mapM b64urlVal).map b64Pack

/-- Big-endian bytes to natural number (Go `new(big.Int).SetBytes`). -/
def natOfBytes (bs : List Nat) : Nat :=
  bs.foldl (fun acc b => acc * 256 + b) 0

/-- Go `int(x.Int64())` on a `big.Int` built from bytes: the low 64 bits,
interpreted as a signed 64-bit value. -/
def goInt64 (v : Nat) : Int :=
  let m : Nat := v % 2 ^ 64
  if m < 2 ^ 63 then (m : Int) else (m : Int) - 2 ^ 64

/-! ## JWKS key-set cache (`internal/middleware/jwks.go`) -/

/-- `rsa.PublicKey`: modulus `N` (big integer) and exponent `E` (Go `int`). -/
structure RSAPublicKey where
  n : Nat
  e : Int
  deriving DecidableEq, Repr

/-- One entry of the JWKS JSON document (`jwksKey`). -/
structure JwksKey where
  kty : String
  kid : String
  use : String
  alg : String
  n : String
  e : String
  deriving DecidableEq, Repr

/-- `parseRSAPublicKey`: decode base64url modulus and exponent; failure of
either decode fails the whole parse. -/
def parseRSAPublicKey (k : JwksKey) : Option RSAPublicKey := do
  let nBytes ← b64urlDecode k.n
  let eBytes ← b64urlDecode k.e
  some ⟨natOfBytes nBytes, goInt64 (natOfBytes eBytes)⟩

/-- Association-list lookup mirroring Go map indexing `c.keys[kid]`. -/
def jwksLookup : List (String × RSAPublicKey) → String → Option RSAPublicKey
  | [], _ => none
  | (k, v) :: rest, kid => if k = kid then some v else jwksLookup rest kid

/-- Association-list insert mirroring Go map assignment `newKeys[k.Kid] = pk`
(a later entry for the same kid overwrites the earlier one). -/
def jwksInsert : List (String × RSAPublicKey) → String → RSAPublicKey →
    List (String × RSAPublicKey)
  | [], kid, v => [(kid, v)]
  | (k, v') :: rest, kid, v =>
      if k = kid then (kid, v) :: rest else (k, v') :: jwksInsert rest kid v

/-- Mutable state of `JWKSClient`: the cached key map and the time of the
last successful refresh (nanoseconds, matching Go's `time.Duration`). -/
structure JWKSState where
  keys : List (String × RSAPublicKey)
  lastFetch : Nat
  deriving DecidableEq, Repr

/-- The freshly constructed client: empty key map, zero last-fetch time. -/
def jwksInitial : JWKSState := { keys := [], lastFetch := 0 }

/-- Body of the HTTP response from the key-set endpoint: either JSON that
decodes into a key list, or a malformed body. -/
inductive JwksBody where
  | malformed (raw : String)
  | wellFormed (keys : List JwksKey)
  deriving DecidableEq, Repr

/-- Outcome of the single HTTP GET a refresh would perform: a transport
error, or a response with a status code and a body. -/
inductive FetchOutcome where
  | transportError (msg : String)
  | response (status : Nat) (body : JwksBody)
  deriving DecidableEq, Repr

/-- The three failure classes of `refresh`: transport error, non-200 HTTP
status, or a body that fails to decode. -/
inductive RefreshErr where
  | transport (msg : String)
  | httpStatus (status : Nat)
  | decode (raw : String)
  deriving DecidableEq, Repr

/-- `fetchFails f` iff `f` is one of the three `refresh` failure classes. -/
def fetchFails : FetchOutcome → Bool
  | .transportError _ => true
  | .response status body =>
      if status ≠ 200 then true
      else match body with
        | .malformed _ => true
        | .wellFormed _ => false

/-- The key map `refresh` builds from a decoded body: skip entries whose
`kty` is not `"RSA"` and entries whose key material fails to parse. -/
def buildKeys (ks : List JwksKey) : List (String × RSAPublicKey) :=
  ks.foldl (fun acc k =>
    if k.kty ≠ "RSA" then acc
    else match parseRSAPublicKey k with
      | none => acc
      | some pk => jwksInsert acc k.kid pk) []

/-- `JWKSClient.refresh`: on any failure the state is returned untouched;
on success the key map is replaced wholesale and `lastFetch` set to `now`. -/
def refresh (st : JWKSState) (now : Nat) (f : FetchOutcome) :
    Except RefreshErr Unit × JWKSState :=
  match f with
  | .transportError m => (.error (.transport m), st)
  | .response status body =>
      if status ≠ 200 then (.error (.httpStatus status), st)
      else match body with
        | .malformed raw => (.error (.decode raw), st)
        | .wellFormed ks => (.ok (), { keys := buildKeys ks, lastFetch := now })

/-- `GetKey` error: key id absent from the (possibly just refreshed) map, or
a failed refresh (`fmt.Errorf("failed to refresh JWKS: %w", err)`). -/
inductive GetKeyErr where
  | notFound (kid : String)
  | refreshFailed (e : RefreshErr)
  deriving DecidableEq, Repr

deriving instance DecidableEq for Except

/-- Result of one `GetKey` call: the returned value or error, the client
state after the call, and the number of network fetches performed. -/
structure GetKeyResult where
  result : Except GetKeyErr RSAPublicKey
  state : JWKSState
  fetches : Nat
  deriving DecidableEq, Repr

/-- The refresh cooldown: `5 * time.Minute` in nanoseconds. -/
def jwksCooldown : Nat := 5 * 60 * 1000000000

/-- `JWKSClient.GetKey(kid)` at time `now`, where `f` is what the network
would return if a fetch happens: cache hit returns immediately; on a miss a
refresh is attempted only if `time.Since(lastFetch) > 5*time.Minute`. -/
def GetKey (st : JWKSState) (kid : String) (now : Nat) (f : FetchOutcome) :
    GetKeyResult :=
  match jwksLookup st.keys kid with
  | some k => ⟨.ok k, st, 0⟩
  | none =>
      if ¬ (now - st.lastFetch > jwksCooldown) then ⟨.error (.notFound kid), st, 0⟩
      else match refresh st now f with
        | (.error e, st') => ⟨.error (.refreshFailed e), st', 1⟩
        | (.ok _, st') =>
            match jwksLookup st'.keys kid with
            | some k => ⟨.ok k, st', 1⟩
            | none => ⟨.error (.notFound kid), st', 1⟩

/-! ## Go `path.Clean` (used by the middleware for the exempt-path check) -/

/-- Character-list version of the prefix test. -/
def listStarts : List Char → List Char → Bool
  | [], _ => true
  | _ :: _, [] => false
  | p :: ps, c :: cs => p == c && listStarts ps cs

/-- Go `strings.HasPrefix s pre`. -/
def strStartsWith (s pre : String) : Bool := listStarts pre.toList s.toList

/-- The inner loop of `path.Clean`'s `..` backtracking: starting from write
position `w`, step left while the position exceeds `dotdot` and the
character at the position is not a slash. -/
def cleanBackW (out : List Char) (dotdot : Nat) : Nat → Nat
  | 0 => 0
  | w + 1 =>
      if w + 1 > dotdot ∧ out.getD (w + 1) ' ' ≠ '/' then cleanBackW out dotdot w
      else w + 1

/-- `path.Clean`'s backtrack on `..`: drop the last byte, then step back to
the previous slash (but never past `dotdot`). -/
def cleanBacktrack (out : List Char) (dotdot : Nat) : List Char :=
  out.take (cleanBackW out dotdot (out.length - 1))

/-- The main loop of Go `path.Clean`, with the remaining input as a list and
explicit fuel (each iteration consumes at least one input byte, so fuel
equal to the input length suffices; the fuel-exhausted branch is dead). -/
def cleanLoop (rooted : Bool) : Nat → List Char → List Char → Nat → List Char
  | 0, _, out, _ => out
  | _ + 1, [], out, _ => out
  | fuel + 1, c :: rest, out, dotdot =>
      if c = '/' then
        cleanLoop rooted fuel rest out dotdot
      else if c = '.' ∧ (rest = [] ∨ rest.head? = some '/') then
        cleanLoop rooted fuel rest out dotdot
      else if c = '.' ∧ rest.head? = some '.' ∧
          (rest.tail = [] ∨ rest.tail.head? = some '/') then
        if out.length > dotdot then
          cleanLoop rooted fuel rest.tail (cleanBacktrack out dotdot) dotdot
        else if ¬ rooted then
          let out2 := (if out.length > 0 then out ++ ['/'] else out) ++ ['.', '.']
          cleanLoop rooted fuel rest.tail out2 out2.length
        else
          cleanLoop rooted fuel rest.tail out dotdot
      else
        let out2 :=
          if (rooted ∧ out.length ≠ 1) ∨ (¬ rooted ∧ out.length ≠ 0) then out ++ ['/']
          else out
        let seg := c :: rest.takeWhile (fun ch => ch ≠ '/')
        cleanLoop rooted fuel (rest.dropWhile (fun ch => ch ≠ '/')) (out2 ++ seg) dotdot

/-- Go `path.Clean`: shortest lexically equivalent path ("" becomes ".",
repeated slashes and `.`/`..` elements are eliminated). -/
def pathClean (p : String) : String :=
  if p = "" then "."
  else
    let cs := p.toList
    let rooted := cs.head? = some '/'
    let out :=
      if rooted then cleanLoop true cs.length cs.tail ['/'] 1
      else cleanLoop false cs.length cs [] 0
    if out.length = 0 then "." else String.mk out

/-! ## Token verification gate (`internal/middleware/auth.go`) -/

/-- Structural content of a decoded JWT: header fields `alg` and `kid`, the
registered claims the gate consults (`none` also covers a claim present
with a non-conforming JSON type, which golang-jwt treats the same way),
and the signature as the set of RSA keys it verifies under. -/
structure JWT where
  alg : String
  kid : Option String
  iss : Option String
  aud : List String
  exp : Option Int
  nbf : Option Int
  sub : Option String
  sigValidFor : RSAPublicKey → Bool

/-- Result of running the compact-serialization parser on a token string:
either structurally malformed or a decoded token. -/
inductive TokenParse where
  | malformed
  | parsed (t : JWT)

/-- Algorithm names registered with golang-jwt v5 (`GetSigningMethod`);
`jwt.ParseUnverified` fails on any other `alg` value. -/
def registeredAlgs : List String :=
  ["HS256", "HS384", "HS512", "RS256", "RS384", "RS512",
   "ES256", "ES384", "ES512", "PS256", "PS384", "PS512", "EdDSA", "none"]

/-- The algorithms whose signing method is the concrete `*SigningMethodRSA`
type the keyfunc's type assertion accepts. -/
def rsaFamilyAlgs : List String := ["RS256", "RS384", "RS512"]

/-- The allow-list passed to `jwt.WithValidMethods` in `handleJWT`. -/
def validMethods : List String := ["RS256"]

/-- golang-jwt v5 audience check: some audience entry equals the expected
client id, and the concatenation of entries is not empty. -/
def verifyAudience (aud : List String) (cmp : String) : Bool :=
  aud.contains cmp && !(String.join aud == "")

/-- golang-jwt v5 default claim validation with `WithIssuer` and
`WithAudience`: expiry (when present) strictly in the future, not-before
(when present) not in the future, audience and exact issuer. -/
def validateClaims (t : JWT) (issuer audCmp : String) (nowSec : Int) : Bool :=
  (match t.exp with | none => true | some e => decide (nowSec < e)) &&
  (match t.nbf with | none => true | some nb => decide (¬ nowSec < nb)) &&
  verifyAudience t.aud audCmp &&
  (match t.iss with | none => false | some i => i == issuer)

/-- Result of `jwt.Parse`: the verified token or a collapsed error, plus the
JWKS cache state afterwards and the number of network fetches performed. -/
structure VerifyResult where
  token : Except Unit JWT
  jwks : JWKSState
  fetches : Nat

/-- The `jwt.Parse` call in `handleJWT` with its keyfunc and options, in
golang-jwt v5 pipeline order: structural parse, `WithValidMethods`
allow-list, keyfunc (RSA method type assertion, `kid` header extraction,
`JWKSClient.GetKey`), signature verification, then claim validation. -/
def jwtVerify (jwks : JWKSState) (f : FetchOutcome) (issuer audCmp : String)
    (nowNs : Nat) (nowSec : Int) (tp : TokenParse) : VerifyResult :=
  match tp with
  | .malformed => ⟨.error (), jwks, 0⟩
  | .parsed t =>
      if ¬ registeredAlgs.contains t.alg then ⟨.error (), jwks, 0⟩
      else if ¬ validMethods.contains t.alg then ⟨.error (), jwks, 0⟩
      else if ¬ rsaFamilyAlgs.contains t.alg then ⟨.error (), jwks, 0⟩
      else match t.kid with
        | none => ⟨.error (), jwks, 0⟩
        | some kid =>
            match GetKey jwks kid nowNs f with
            | ⟨.error _, st', n⟩ => ⟨.error (), st', n⟩
            | ⟨.ok key, st', n⟩ =>
                if ¬ t.sigValidFor key then ⟨.error (), st', n⟩
                else if ¬ validateClaims t issuer audCmp nowSec then ⟨.error (), st', n⟩
                else ⟨.ok t, st', n⟩

/-- Authorization decision: invoke the downstream handler (with the user id
stored in the request context, or no stored id on exempt paths), or write
an error response. `writeAuthError` renders a rejection as the fixed JSON
object built from exactly the status, code and message recorded here. -/
inductive Outcome where
  | proceed (userID : Option String)
  | reject (status : Nat) (code : String) (message : String)
  deriving DecidableEq, Repr

/-- Full effect of one middleware run: the decision, the JWKS cache state
afterwards, and how many network fetches / resolver calls were made. -/
structure MWResult where
  outcome : Outcome
  jwks : JWKSState
  fetches : Nat
  resolverCalls : Nat
  deriving DecidableEq, Repr

/-- Behaviour of one `UserResolver.ResolveUserID` call: a resolved id, the
distinguished `ErrUserNotFound`, or any other error. -/
inductive ResolverResult where
  | ok (userID : String)
  | notFound
  | failure (msg : String)
  deriving DecidableEq, Repr

/-- The request fields the middleware reads. Header accessors follow Go's
`Header.Get`, which returns `""` for an absent header. -/
structure Request where
  path : String
  authorization : String
  xUserID : String

/-- The middleware's environment for one request: JWKS cache state, what
the network would return on a fetch, the resolver collaborator, the JWT
string-level parser, and the current time (nanoseconds for the cache
cooldown, seconds for claim validation). -/
structure AuthEnv where
  jwks : JWKSState
  fetch : FetchOutcome
  resolver : String → ResolverResult
  parseJWT : String → TokenParse
  nowNs : Nat
  nowSec : Int

/-- `AuthConfig` fields the request path reads (`DevMode`, `Issuer`,
`AppClientID`); the JWKS client and resolver live in `AuthEnv`. -/
structure AuthCfg where
  devMode : Bool
  issuer : String
  appClientID : String

/-- `handleDevMode`: trust the `X-User-ID` header verbatim; reject 401 when
it is absent. -/
def handleDevMode (env : AuthEnv) (r : Request) : MWResult :=
  if r.xUserID = "" then
    ⟨.reject 401 "UNAUTHORIZED" "X-User-ID header required in dev mode", env.jwks, 0, 0⟩
  else ⟨.proceed (some r.xUserID), env.jwks, 0, 0⟩

/-- `handleJWT`: bearer-token extraction, `jwt.Parse` verification, `sub`
extraction, resolver call, then context injection. -/
def handleJWT (cfg : AuthCfg) (env : AuthEnv) (r : Request) : MWResult :=
  if r.authorization = "" then
    ⟨.reject 401 "UNAUTHORIZED" "authorization header required", env.jwks, 0, 0⟩
  else if ¬ strStartsWith r.authorization "Bearer " then
    ⟨.reject 401 "UNAUTHORIZED" "invalid authorization header format", env.jwks, 0, 0⟩
  else
    let tokenStr := r.authorization.drop 7
    match jwtVerify env.jwks env.fetch cfg.issuer cfg.appClientID env.nowNs env.nowSec
        (env.parseJWT tokenStr) with
    | ⟨.error _, st', n⟩ =>
        ⟨.reject 401 "UNAUTHORIZED" "invalid or expired token", st', n, 0⟩
    | ⟨.ok t, st', n⟩ =>
        match t.sub with
        | none => ⟨.reject 401 "UNAUTHORIZED" "sub claim not found", st', n, 0⟩
        | some s =>
            if s = "" then ⟨.reject 401 "UNAUTHORIZED" "sub claim not found", st', n, 0⟩
            else match env.resolver s with
              | .notFound => ⟨.reject 401 "UNAUTHORIZED" "user not found", st', n, 1⟩
              | .failure _ => ⟨.reject 500 "INTERNAL_ERROR" "internal server error", st', n, 1⟩
              | .ok uid => ⟨.proceed (some uid), st', n, 1⟩

/-- The middleware's exempt-path test on the cleaned request path. -/
def isExemptPath (p : String) : Bool :=
  pathClean p = "/health" || strStartsWith (pathClean p) "/api/v1/auth/"

/-- `Auth.Middleware`: exempt paths proceed untouched; otherwise dev-mode or
JWT handling according to the construction-time mode. -/
def Middleware (cfg : AuthCfg) (env : AuthEnv) (r : Request) : MWResult :=
  if isExemptPath r.path then ⟨.proceed none, env.jwks, 0, 0⟩
  else if cfg.devMode then handleDevMode env r
  else handleJWT cfg env r

/-- `middleware.GetUserID` as downstream handlers see it: the stored context
value, or `""` when nothing was stored. -/
def GetUserID : Option String → String
  | none => ""
  | some s => s

/-! ## Cursor-based list pagination (`PostgresTodoRepository.List` and
`TodoHandler.handleList`) -/

/-- `model.Todo`. Timestamps are integers; `DueAt` is a nullable column. -/
structure Todo where
  id : String
  userID : String
  title : String
  description : String
  status : String
  dueAt : Option Int
  createdAt : Int
  updatedAt : Int
  deriving DecidableEq, Repr

/-- `model.TodoListParams`. -/
structure TodoListParams where
  userID : String
  status : Option String
  cursor : String
  limit : Int
  deriving DecidableEq, Repr

/-- `model.TodoListResult`. The `Todos` slice keeps Go's distinction
between a `nil` slice (serialized as `null`) and an empty one (serialized
as `[]`), modelled as `Option (List Todo)`. -/
structure TodoListResult where
  todos : Option (List Todo)
  nextCursor : String
  deriving DecidableEq, Repr

/-- The page-size clamp at the top of `List`:
`if limit <= 0 || limit > 100 { limit = 20 }`. -/
def repoEffectiveLimit (l : Int) : Int := if l ≤ 0 ∨ l > 100 then 20 else l

/-- Insert into a descending-by-`created_at` list, after any row with an
equal or greater timestamp (stable insertion). -/
def insertDesc (t : Todo) : List Todo → List Todo
  | [] => [t]
  | x :: xs => if x.createdAt < t.createdAt then t :: x :: xs else x :: insertDesc t xs

/-- `ORDER BY created_at DESC` as a deterministic (stable) insertion sort. -/
def sortDesc : List Todo → List Todo
  | [] => []
  | x :: xs => insertDesc x (sortDesc xs)

/-- The `WHERE` clause of the list query: `user_id = $1`, the optional
`status` filter, and the cursor constraint
`created_at < (SELECT created_at FROM todos WHERE id = $n)` — if the
cursor row does not exist the sub-select is NULL and no row matches. -/
def rowMatches (db : List Todo) (userID : String) (status : Option String)
    (cursor : String) (t : Todo) : Bool :=
  t.userID == userID &&
  (match status with | none => true | some s => t.status == s) &&
  (cursor == "" ||
    match db.find? (fun u => u.id == cursor) with
    | none => false
    | some u => decide (t.createdAt < u.createdAt))

/-- The SQL query of `List` over a modelled `todos` table: filter, order by
`created_at` descending, and apply `LIMIT fetchLimit`. -/
def sqlListTodos (db : List Todo) (userID : String) (status : Option String)
    (cursor : String) (fetchLimit : Nat) : List Todo :=
  (sortDesc (db.filter (rowMatches db userID status cursor))).take fetchLimit

/-- `PostgresTodoRepository.List`: clamp the page size, over-fetch one row,
truncate and derive the next cursor from `todos[limit-1].ID`, and replace a
`nil` slice (no rows appended) by an empty one. -/
def repoList (db : List Todo) (p : TodoListParams) : TodoListResult :=
  let limit : Int := repoEffectiveLimit p.limit
  let fetchLimit : Int := limit + 1
  let rows := sqlListTodos db p.userID p.status p.cursor fetchLimit.toNat
  let todosScanned : Option (List Todo) := if rows.isEmpty then none else some rows
  let ln := limit.toNat
  if rows.length > ln then
    { todos := some (rows.take ln),
      nextCursor := ((rows[ln - 1]?).map Todo.id).getD "" }
  else
    { todos := match todosScanned with | none => some [] | some l => some l,
      nextCursor := "" }

/-- Go `strconv.Atoi`: optional single sign, decimal digits only, value
within the signed 64-bit range; anything else is an error. -/
def goAtoi (s : String) : Option Int :=
  match s.toList with
  | [] => none
  | c :: rest =>
      let (neg, digits) :=
        if c = '-' then (true, rest)
        else if c = '+' then (false, rest)
        else (false, c :: rest)
      if digits.isEmpty then none
      else if digits.all (fun d => '0' ≤ d ∧ d ≤ '9') then
        let v : Nat := digits.foldl (fun acc d => acc * 10 + (d.toNat - 48)) 0
        let i : Int := if neg then -(v : Int) else (v : Int)
        if -(2 ^ 63) ≤ i ∧ i ≤ 2 ^ 63 - 1 then some i else none
      else none

/-- The `limit` handling in `TodoHandler.handleList`: default 20, replaced
by the parsed value only when parsing succeeds and `0 < l ≤ 100`. -/
def handleListLimit (limitStr : String) : Int :=
  if limitStr = "" then 20
  else match goAtoi limitStr with
    | some l => if 0 < l ∧ l ≤ 100 then l else 20
    | none => 20


/-! ## Theorems: key-set cache -/

/-- After a cache miss that performs a successful refresh, the resulting
client state is exactly the freshly built key map with `lastFetch = now`. -/
theorem getKey_success_refresh_state (st : JWKSState) (kid : String) (now : Nat)
    (ks : List JwksKey) (hmiss : jwksLookup st.keys kid = none)
    (hcan : jwksCooldown < now - st.lastFetch) :
    (GetKey st kid now (.response 200 (.wellFormed ks))).state =
      { keys := buildKeys ks, lastFetch := now } := by
  unfold GetKey refresh
  rw [hmiss]
  simp only [gt_iff_lt, hcan, not_true_eq_false, if_false, ite_not]
  cases hl : jwksLookup (buildKeys ks) kid <;> simp [hl]

/-- C4: a `GetKey` call whose key id misses the cache while the 5-minute
cooldown since the last successful refresh is still running performs zero
network fetches and fails immediately with a not-found error; in
particular, after a successful refresh at time `now` that left some key id
unresolved, a second call for any unknown key id within the cooldown
performs no additional fetch. -/
theorem getKey_cooldown_blocks_refetch :
    (∀ (st : JWKSState) (kid : String) (now : Nat) (f : FetchOutcome),
      jwksLookup st.keys kid = none →
      now - st.lastFetch ≤ jwksCooldown →
      GetKey st kid now f = ⟨.error (.notFound kid), st, 0⟩) ∧
    (∀ (st : JWKSState) (kid₁ kid₂ : String) (now now' : Nat)
      (ks : List JwksKey) (f' : FetchOutcome),
      jwksLookup st.keys kid₁ = none →
      jwksCooldown < now - st.lastFetch →
      jwksLookup (GetKey st kid₁ now (.response 200 (.wellFormed ks))).state.keys kid₂
        = none →
      now' - now ≤ jwksCooldown →
      GetKey (GetKey st kid₁ now (.response 200 (.wellFormed ks))).state kid₂ now' f' =
        ⟨.error (.notFound kid₂),
          (GetKey st kid₁ now (.response 200 (.wellFormed ks))).state, 0⟩) := by
  have base : ∀ (st : JWKSState) (kid : String) (now : Nat) (f : FetchOutcome),
      jwksLookup st.keys kid = none →
      now - st.lastFetch ≤ jwksCooldown →
      GetKey st kid now f = ⟨.error (.notFound kid), st, 0⟩ := by
    intro st kid now f hmiss hcool
    unfold GetKey
    rw [hmiss]
    simp [Nat.not_lt.mpr hcool]
  refine ⟨base, ?_⟩
  intro st kid₁ kid₂ now now' ks f' hmiss₁ hcan hmiss₂ hcool
  refine base _ _ _ _ hmiss₂ ?_
  rw [getKey_success_refresh_state st kid₁ now ks hmiss₁ hcan]
  exact hcool

/-- Closed instance of the C4 theorem: a miss on an empty cache 100ns after
construction performs no fetch and fails not-found. -/
theorem getKey_cooldown_blocks_refetch_witness :
    GetKey jwksInitial "kid-a" 100 (.transportError "boom") =
      ⟨.error (.notFound "kid-a"), jwksInitial, 0⟩ :=
  getKey_cooldown_blocks_refetch.1 jwksInitial "kid-a" 100 (.transportError "boom")
    (by decide) (by decide)

/-- C9: a failed refresh (transport error, non-200 status, or malformed
body) returns an error and leaves the cache state — key map and last-fetch
timestamp — exactly as it was; consequently a `GetKey` miss afterwards,
at any time at which a refresh was already permitted, still performs a
network fetch (the cooldown was not armed by the failure). -/
theorem refresh_failure_preserves_state :
    (∀ (st : JWKSState) (now : Nat) (f : FetchOutcome),
      fetchFails f = true →
      (refresh st now f).2 = st ∧ ∃ e, (refresh st now f).1 = .error e) ∧
    (∀ (st : JWKSState) (now now' : Nat) (f f' : FetchOutcome) (kid : String),
      fetchFails f = true →
      jwksLookup st.keys kid = none →
      jwksCooldown < now' - st.lastFetch →
      (GetKey (refresh st now f).2 kid now' f').fetches = 1) := by
  have base : ∀ (st : JWKSState) (now : Nat) (f : FetchOutcome),
      fetchFails f = true →
      (refresh st now f).2 = st ∧ ∃ e, (refresh st now f).1 = .error e := by
    intro st now f hf
    cases f with
    | transportError m => exact ⟨rfl, ⟨.transport m, rfl⟩⟩
    | response status body =>
        by_cases hs : status = 200
        · subst hs
          cases body with
          | malformed raw => exact ⟨rfl, ⟨.decode raw, rfl⟩⟩
          | wellFormed ks => simp [fetchFails] at hf
        · refine ⟨?_, ⟨.httpStatus status, ?_⟩⟩ <;> simp [refresh, hs]
  refine ⟨base, ?_⟩
  intro st now now' f f' kid hf hmiss hcan
  rw [(base st now f hf).1]
  unfold GetKey
  rw [hmiss]
  simp only [gt_iff_lt, hcan, not_true_eq_false, if_false, ite_not]
  rcases hr : refresh st now' f' with ⟨res, st'⟩
  cases res with
  | error e => simp [hr]
  | ok u => cases hl : jwksLookup st'.keys kid <;> simp [hr, hl]

/-- Closed instance of the C9 theorem: a 503 response leaves the initial
state unchanged, and a later miss outside the cooldown still fetches. -/
theorem refresh_failure_preserves_state_witness :
    ((refresh jwksInitial 50 (.response 503 (.malformed "oops"))).2 = jwksInitial ∧
      ∃ e, (refresh jwksInitial 50 (.response 503 (.malformed "oops"))).1 = .error e) ∧
    (GetKey (refresh jwksInitial 50 (.response 503 (.malformed "oops"))).2 "kid-b"
        400000000000 (.transportError "again")).fetches = 1 :=
  ⟨refresh_failure_preserves_state.1 jwksInitial 50 (.response 503 (.malformed "oops"))
      (by decide),
    refresh_failure_preserves_state.2 jwksInitial 50 400000000000
      (.response 503 (.malformed "oops")) (.transportError "again") "kid-b"
      (by decide) (by decide) (by decide)⟩

/-! ## Theorems: token verification gate -/

/-- A fixed RSA key for concrete instances. -/
def testKey : RSAPublicKey := { n := 3233, e := 17 }

/-- A cache state that already holds `testKey` under kid `k1`. -/
def cachedState : JWKSState := { keys := [("k1", testKey)], lastFetch := 1000 }

/-- A token that passes every check of the verified-mode pipeline against
`verifiedCfg` and `cachedState`: RS256, cached kid, matching issuer and
audience, unexpired, with a non-empty subject. -/
def validToken : JWT :=
  { alg := "RS256", kid := some "k1", iss := some "https://pool-1",
    aud := ["app-client"], exp := some 4102444800, nbf := none,
    sub := some "sub-1", sigValidFor := fun key => key == testKey }

/-- Verified-token-mode configuration for concrete instances. -/
def verifiedCfg : AuthCfg :=
  { devMode := false, issuer := "https://pool-1", appClientID := "app-client" }

/-- Environment for concrete instances: cache `cachedState`, a given
resolver and string-level parser, fixed times. -/
def baseEnv (res : String → ResolverResult) (tp : String → TokenParse) : AuthEnv :=
  { jwks := cachedState, fetch := .transportError "unused", resolver := res,
    parseJWT := tp, nowNs := 2000, nowSec := 1700000000 }

/-- In verified mode, any bearer token whose declared algorithm is not
`RS256` is stopped by the `WithValidMethods` allow-list: rejected 401 with
no fetch, no resolver call and the cache untouched. -/
theorem handleJWT_alg_not_rs256 (cfg : AuthCfg) (env : AuthEnv) (r : Request) (t : JWT)
    (hauth : r.authorization ≠ "")
    (hbearer : strStartsWith r.authorization "Bearer " = true)
    (htok : env.parseJWT (r.authorization.drop 7) = .parsed t)
    (halg : t.alg ≠ "RS256") :
    handleJWT cfg env r =
      ⟨.reject 401 "UNAUTHORIZED" "invalid or expired token", env.jwks, 0, 0⟩ := by
  have hvm : ¬ t.alg ∈ validMethods := by
    simp [validMethods, halg]
  by_cases hreg : t.alg ∈ registeredAlgs <;>
    simp [handleJWT, jwtVerify, hauth, hbearer, htok, hreg, hvm]

/-- C2: a request whose cleaned path is `/health` or starts with
`/api/v1/auth/` proceeds to the downstream handler in both modes with no
user id stored, no fetch, no resolver call and the cache untouched — for
every value of the `Authorization` and `X-User-ID` headers; any other
path goes through the mode's handler (`handleDevMode` or `handleJWT`). -/
theorem middleware_exempt_paths_bypass :
    (∀ (cfg : AuthCfg) (env : AuthEnv) (r : Request),
      (pathClean r.path = "/health" ∨
        strStartsWith (pathClean r.path) "/api/v1/auth/" = true) →
      Middleware cfg env r = ⟨.proceed none, env.jwks, 0, 0⟩) ∧
    (∀ (cfg : AuthCfg) (env : AuthEnv) (r : Request),
      ¬ (pathClean r.path = "/health" ∨
        strStartsWith (pathClean r.path) "/api/v1/auth/" = true) →
      Middleware cfg env r =
        if cfg.devMode then handleDevMode env r else handleJWT cfg env r) := by
  constructor
  · intro cfg env r h
    have hex : isExemptPath r.path = true := by
      unfold isExemptPath
      rcases h with h1 | h2
      · simp [h1]
      · simp [h2]
    simp [Middleware, hex]
  · intro cfg env r h
    have hex : isExemptPath r.path = false := by
      unfold isExemptPath
      rcases not_or.mp h with ⟨h1, h2⟩
      simp [h1, h2]
    simp [Middleware, hex]

/-- Closed instance of the C2 theorem: `/health` and a login path proceed
unauthenticated with no headers in both modes; `/api/v1/todos` is handled
by the verified-mode handler. -/
theorem middleware_exempt_paths_bypass_witness :
    (Middleware verifiedCfg (baseEnv (fun _ => .notFound) (fun _ => .malformed))
        { path := "/health", authorization := "", xUserID := "" } =
      ⟨.proceed none, cachedState, 0, 0⟩) ∧
    (Middleware { devMode := true, issuer := "", appClientID := "" }
        (baseEnv (fun _ => .notFound) (fun _ => .malformed))
        { path := "/api/v1/auth/login", authorization := "", xUserID := "" } =
      ⟨.proceed none, cachedState, 0, 0⟩) ∧
    (Middleware verifiedCfg (baseEnv (fun _ => .notFound) (fun _ => .malformed))
        { path := "/api/v1/todos", authorization := "", xUserID := "" } =
      handleJWT verifiedCfg (baseEnv (fun _ => .notFound) (fun _ => .malformed))
        { path := "/api/v1/todos", authorization := "", xUserID := "" }) :=
  ⟨middleware_exempt_paths_bypass.1 _ _ _ (Or.inl (by decide)),
    middleware_exempt_paths_bypass.1 _ _ _ (Or.inr (by decide)),
    middleware_exempt_paths_bypass.2 _ _ _ (by decide)⟩

/-- C1: in verified mode, a bearer token declaring an algorithm outside the
RSA family (`none`, HMAC, ECDSA, …) is rejected 401 whatever its kid and
claim values, with zero fetches (so the key cache is never consulted) and
zero resolver calls. -/
theorem nonRSA_alg_rejected (cfg : AuthCfg) (env : AuthEnv) (r : Request) (t : JWT)
    (hmode : cfg.devMode = false)
    (hpath : isExemptPath r.path = false)
    (hauth : r.authorization ≠ "")
    (hbearer : strStartsWith r.authorization "Bearer " = true)
    (htok : env.parseJWT (r.authorization.drop 7) = .parsed t)
    (halg : ¬ t.alg ∈ rsaFamilyAlgs) :
    Middleware cfg env r =
      ⟨.reject 401 "UNAUTHORIZED" "invalid or expired token", env.jwks, 0, 0⟩ := by
  have halg' : t.alg ≠ "RS256" := by
    intro h
    exact halg (by rw [h]; simp [rsaFamilyAlgs])
  rw [Middleware, hpath]
  simp only [Bool.false_eq_true, if_false, hmode]
  exact handleJWT_alg_not_rs256 cfg env r t hauth hbearer htok halg'

/-- Closed instance of the C1 theorem: an `alg: "none"` token with a cached
kid and otherwise perfect claims is rejected 401 without a fetch. -/
theorem nonRSA_alg_rejected_witness :
    Middleware verifiedCfg
      (baseEnv (fun _ => .ok "user-7")
        (fun _ => .parsed { validToken with alg := "none" }))
      { path := "/api/v1/todos", authorization := "Bearer t", xUserID := "" } =
    ⟨.reject 401 "UNAUTHORIZED" "invalid or expired token", cachedState, 0, 0⟩ :=
  nonRSA_alg_rejected verifiedCfg
    (baseEnv (fun _ => .ok "user-7")
      (fun _ => .parsed { validToken with alg := "none" }))
    { path := "/api/v1/todos", authorization := "Bearer t", xUserID := "" }
    { validToken with alg := "none" }
    rfl (by decide) (by decide) (by decide) rfl (by decide)

/-- C3: in verified mode, when the token clears parsing, the algorithm
allow-list, key lookup, signature and claim validation, and carries a
non-empty subject, a resolver "not found" yields 401/UNAUTHORIZED and any
other resolver error yields 500/INTERNAL_ERROR; in both cases the rejection
is the fixed triple rendered by `writeAuthError` — the same constant for
every resolver error message, so the raw resolver error text can never
appear in the response body. -/
theorem resolver_error_mapping (cfg : AuthCfg) (env : AuthEnv) (r : Request)
    (t : JWT) (st' : JWKSState) (nf : Nat) (s : String)
    (hmode : cfg.devMode = false)
    (hpath : isExemptPath r.path = false)
    (hauth : r.authorization ≠ "")
    (hbearer : strStartsWith r.authorization "Bearer " = true)
    (hver : jwtVerify env.jwks env.fetch cfg.issuer cfg.appClientID env.nowNs env.nowSec
        (env.parseJWT (r.authorization.drop 7)) = ⟨.ok t, st', nf⟩)
    (hsub : t.sub = some s) (hs : s ≠ "") :
    (env.resolver s = .notFound →
      Middleware cfg env r =
        ⟨.reject 401 "UNAUTHORIZED" "user not found", st', nf, 1⟩) ∧
    (∀ msg, env.resolver s = .failure msg →
      Middleware cfg env r =
        ⟨.reject 500 "INTERNAL_ERROR" "internal server error", st', nf, 1⟩) := by
  constructor
  · intro hres
    simp [Middleware, hpath, hmode, handleJWT, hauth, hbearer, hver, hsub, hs, hres]
  · intro msg hres
    simp [Middleware, hpath, hmode, handleJWT, hauth, hbearer, hver, hsub, hs, hres]

/-- Closed instance of the C3 theorem: with a fully valid token, a
not-found resolver gives the fixed 401 and a failing resolver (error text
included in the instance) gives the fixed 500. -/
theorem resolver_error_mapping_witness :
    (Middleware verifiedCfg (baseEnv (fun _ => .notFound) (fun _ => .parsed validToken))
        { path := "/api/v1/todos", authorization := "Bearer t", xUserID := "" } =
      ⟨.reject 401 "UNAUTHORIZED" "user not found", cachedState, 0, 1⟩) ∧
    (Middleware verifiedCfg
        (baseEnv (fun _ => .failure "pg: connection refused")
          (fun _ => .parsed validToken))
        { path := "/api/v1/todos", authorization := "Bearer t", xUserID := "" } =
      ⟨.reject 500 "INTERNAL_ERROR" "internal server error", cachedState, 0, 1⟩) :=
  ⟨(resolver_error_mapping verifiedCfg
        (baseEnv (fun _ => .notFound) (fun _ => .parsed validToken))
        { path := "/api/v1/todos", authorization := "Bearer t", xUserID := "" }
        validToken cachedState 0 "sub-1" rfl (by decide) (by decide) (by decide)
        rfl rfl (by decide)).1 rfl,
    (resolver_error_mapping verifiedCfg
        (baseEnv (fun _ => .failure "pg: connection refused")
          (fun _ => .parsed validToken))
        { path := "/api/v1/todos", authorization := "Bearer t", xUserID := "" }
        validToken cachedState 0 "sub-1" rfl (by decide) (by decide) (by decide)
        rfl rfl (by decide)).2 "pg: connection refused" rfl⟩

/-- C5 counterexample: on a non-exempt path in verified mode, a resolver
that succeeds with the empty string makes the middleware proceed with the
empty string stored as the context user id — the gate performs no
non-emptiness check on the resolver's result, so the claim as stated fails
for such an environment. -/
theorem context_userid_empty_counterexample :
    isExemptPath "/api/v1/todos" = false ∧
    (Middleware verifiedCfg (baseEnv (fun _ => .ok "") (fun _ => .parsed validToken))
        { path := "/api/v1/todos", authorization := "Bearer t", xUserID := "" }).outcome
      = .proceed (some "") ∧
    GetUserID (some "") = "" := by
  refine ⟨by decide, ?_, rfl⟩
  rfl

/-- C5 (amended): whenever the middleware proceeds on a non-exempt path the
context user id is present, and it is non-empty provided the resolver never
returns an empty id on success (dev mode needs no such proviso: the header
is checked non-empty before being stored). -/
theorem context_userid_nonempty (cfg : AuthCfg) (env : AuthEnv) (r : Request)
    (hres : ∀ s u, env.resolver s = .ok u → u ≠ "")
    (hpath : isExemptPath r.path = false)
    (u : Option String)
    (hout : (Middleware cfg env r).outcome = .proceed u) :
    ∃ uid, u = some uid ∧ uid ≠ "" := by
  rw [Middleware, hpath] at hout
  simp only [Bool.false_eq_true, if_false] at hout
  by_cases hdev : cfg.devMode
  · rw [if_pos hdev] at hout
    by_cases hx : r.xUserID = ""
    · simp [handleDevMode, hx] at hout
    · simp [handleDevMode, hx] at hout
      exact ⟨r.xUserID, hout.symm, hx⟩
  · rw [if_neg hdev] at hout
    by_cases ha : r.authorization = ""
    · simp [handleJWT, ha] at hout
    · by_cases hb : strStartsWith r.authorization "Bearer " = true
      · rcases hv : jwtVerify env.jwks env.fetch cfg.issuer cfg.appClientID env.nowNs
            env.nowSec (env.parseJWT (r.authorization.drop 7)) with ⟨tok, st', n⟩
        cases tok with
        | error e => simp [handleJWT, ha, hb, hv] at hout
        | ok t =>
            cases hsub : t.sub with
            | none => simp [handleJWT, ha, hb, hv, hsub] at hout
            | some s =>
                by_cases hse : s = ""
                · simp [handleJWT, ha, hb, hv, hsub, hse] at hout
                · cases hr : env.resolver s with
                  | ok uid =>
                      simp [handleJWT, ha, hb, hv, hsub, hse, hr] at hout
                      exact ⟨uid, hout.symm, hres s uid hr⟩
                  | notFound => simp [handleJWT, ha, hb, hv, hsub, hse, hr] at hout
                  | failure m => simp [handleJWT, ha, hb, hv, hsub, hse, hr] at hout
      · simp [handleJWT, ha, hb] at hout

/-- Closed instance of the amended C5 theorem, at a resolver that returns
the non-empty id `user-9`. -/
theorem context_userid_nonempty_witness :
    ∃ uid, (some "user-9" : Option String) = some uid ∧ uid ≠ "" :=
  context_userid_nonempty verifiedCfg
    (baseEnv (fun _ => .ok "user-9") (fun _ => .parsed validToken))
    { path := "/api/v1/todos", authorization := "Bearer t", xUserID := "" }
    (fun s u h => by cases h; decide) (by decide) (some "user-9") rfl

/-- C7 counterexample: no request bearing a token whose algorithm is RS384
or RS512 is ever accepted in verified mode — however valid its signature
and claims — so the gate does not accept other RSA variants: it pins
verification to RS256 via `WithValidMethods`. -/
theorem no_rsa_variant_acceptance :
    ¬ ∃ (cfg : AuthCfg) (env : AuthEnv) (r : Request) (t : JWT) (u : Option String),
      cfg.devMode = false ∧
      isExemptPath r.path = false ∧
      env.parseJWT (r.authorization.drop 7) = .parsed t ∧
      (t.alg = "RS384" ∨ t.alg = "RS512") ∧
      (Middleware cfg env r).outcome = .proceed u := by
  rintro ⟨cfg, env, r, t, u, hmode, hpath, htok, halg, hout⟩
  have halg' : t.alg ≠ "RS256" := by rcases halg with h | h <;> simp [h]
  rw [Middleware, hpath] at hout
  simp only [Bool.false_eq_true, if_false, hmode] at hout
  by_cases ha : r.authorization = ""
  · simp [handleJWT, ha] at hout
  · by_cases hb : strStartsWith r.authorization "Bearer " = true
    · rw [handleJWT_alg_not_rs256 cfg env r t ha hb htok halg'] at hout
      simp at hout
    · simp [handleJWT, ha, hb] at hout

/-- C7 (amended): in verified mode a bearer token declaring the RSA-family
algorithm RS384 or RS512 is rejected 401 — before any key fetch, signature
check or resolver call — because the allow-list pins verification to
RS256 exactly. -/
theorem rsa_variant_not_rs256_rejected (cfg : AuthCfg) (env : AuthEnv) (r : Request)
    (t : JWT)
    (hmode : cfg.devMode = false)
    (hpath : isExemptPath r.path = false)
    (hauth : r.authorization ≠ "")
    (hbearer : strStartsWith r.authorization "Bearer " = true)
    (htok : env.parseJWT (r.authorization.drop 7) = .parsed t)
    (halg : t.alg = "RS384" ∨ t.alg = "RS512") :
    Middleware cfg env r =
      ⟨.reject 401 "UNAUTHORIZED" "invalid or expired token", env.jwks, 0, 0⟩ := by
  have halg' : t.alg ≠ "RS256" := by rcases halg with h | h <;> simp [h]
  rw [Middleware, hpath]
  simp only [Bool.false_eq_true, if_false, hmode]
  exact handleJWT_alg_not_rs256 cfg env r t hauth hbearer htok halg'

/-- Closed instance of the amended C7 theorem: an RS384 token whose
signature verifies under the cached key and whose claims are all valid is
still rejected 401 with no fetch. -/
theorem rsa_variant_not_rs256_rejected_witness :
    Middleware verifiedCfg
      (baseEnv (fun _ => .ok "user-7")
        (fun _ => .parsed { validToken with alg := "RS384" }))
      { path := "/api/v1/todos", authorization := "Bearer t", xUserID := "" } =
    ⟨.reject 401 "UNAUTHORIZED" "invalid or expired token", cachedState, 0, 0⟩ :=
  rsa_variant_not_rs256_rejected verifiedCfg
    (baseEnv (fun _ => .ok "user-7")
      (fun _ => .parsed { validToken with alg := "RS384" }))
    { path := "/api/v1/todos", authorization := "Bearer t", xUserID := "" }
    { validToken with alg := "RS384" }
    rfl (by decide) (by decide) (by decide) rfl (Or.inl rfl)

/-! ## Theorems: list pagination -/

/-- A row of the scenario table: fixed owner `u1`, given creation time and
identifier. -/
def scenarioTodo (created : Int) (ident : String) : Todo :=
  { id := ident, userID := "u1", title := "t", description := "",
    status := "pending", dueAt := none, createdAt := created, updatedAt := 0 }

/-- 25 rows of one user, strictly decreasing creation times (so the table
is already in `created_at DESC` order, with no timestamp ties). -/
def scenarioDb : List Todo :=
  [scenarioTodo 999 "id01", scenarioTodo 998 "id02", scenarioTodo 997 "id03",
   scenarioTodo 996 "id04", scenarioTodo 995 "id05", scenarioTodo 994 "id06",
   scenarioTodo 993 "id07", scenarioTodo 992 "id08", scenarioTodo 991 "id09",
   scenarioTodo 990 "id10", scenarioTodo 989 "id11", scenarioTodo 988 "id12",
   scenarioTodo 987 "id13", scenarioTodo 986 "id14", scenarioTodo 985 "id15",
   scenarioTodo 984 "id16", scenarioTodo 983 "id17", scenarioTodo 982 "id18",
   scenarioTodo 981 "id19", scenarioTodo 980 "id20", scenarioTodo 979 "id21",
   scenarioTodo 978 "id22", scenarioTodo 977 "id23", scenarioTodo 976 "id24",
   scenarioTodo 975 "id25"]

/-- The clamped page size is always in `[1, 100]` (in particular positive). -/
theorem repoEffectiveLimit_pos (l : Int) : 0 < repoEffectiveLimit l := by
  unfold repoEffectiveLimit; split <;> omega

/-- C6: `List` fetches `page_size + 1` rows; when the query returns strictly
more than `page_size` rows the result is truncated to exactly `page_size`
items and the next cursor is the id of the last kept item (`todos[limit-1]`);
when it returns at most `page_size` rows the next cursor is empty.
Consequently, on a table of 25 matching rows with `limit=20`, the first
call returns the first 20 rows with next cursor `id20`, and the call with
cursor `id20` returns the remaining 5 rows with an empty next cursor. -/
theorem list_overfetch_truncation :
    (∀ (db : List Todo) (p : TodoListParams) (rows : List Todo) (ln : Nat),
      ln = (repoEffectiveLimit p.limit).toNat →
      rows = sqlListTodos db p.userID p.status p.cursor
        ((repoEffectiveLimit p.limit + 1).toNat) →
      (rows.length > ln →
        (repoList db p).todos = some (rows.take ln) ∧
        ((repoList db p).todos.getD []).length = ln ∧
        (repoList db p).nextCursor =
          ((((repoList db p).todos.getD []).getLast?).map Todo.id).getD "") ∧
      (rows.length ≤ ln → (repoList db p).nextCursor = "")) ∧
    ((repoList scenarioDb { userID := "u1", status := none, cursor := "", limit := 20 }).todos
        = some (scenarioDb.take 20) ∧
      (repoList scenarioDb
          { userID := "u1", status := none, cursor := "", limit := 20 }).nextCursor
        = "id20" ∧
      (repoList scenarioDb
          { userID := "u1", status := none, cursor := "id20", limit := 20 }).todos
        = some (scenarioDb.drop 20) ∧
      (repoList scenarioDb
          { userID := "u1", status := none, cursor := "id20", limit := 20 }).nextCursor
        = "") := by
  constructor
  · intro db p rows ln hln hrows
    have hpos : (0 : Int) < repoEffectiveLimit p.limit := repoEffectiveLimit_pos _
    have hln1 : 1 ≤ ln := by subst hln; omega
    constructor
    · intro hgt
      have htake : (rows.take ln).length = ln := by
        rw [List.length_take]; omega
      subst hln hrows
      simp only [repoList]
      rw [if_pos hgt]
      refine ⟨rfl, ?_, ?_⟩
      · simpa using htake
      · simp only [Option.getD_some]
        rw [List.getLast?_eq_getElem?, htake, List.getElem?_take, if_pos (by omega)]
    · intro hle
      subst hln hrows
      simp only [repoList]
      rw [if_neg (by omega)]
  · exact ⟨by decide, by decide, by decide, by decide⟩

/-- Closed instance of the C6 theorem's general part, at the 25-row table
with `limit=20`: the first page is the 21-row fetch truncated to 20. -/
theorem list_overfetch_truncation_witness :
    (repoList scenarioDb { userID := "u1", status := none, cursor := "", limit := 20 }).todos
      = some ((sqlListTodos scenarioDb "u1" none ""
          ((repoEffectiveLimit 20 + 1).toNat)).take 20) :=
  ((list_overfetch_truncation.1 scenarioDb
      { userID := "u1", status := none, cursor := "", limit := 20 } _ 20
      (by decide) rfl).1 (by decide)).1

/-- C8: a `limit` query value that fails to parse as an integer, or parses
below 1 or above 100, leaves the handler's page size at the default 20 —
it is not clamped to the nearest bound — while a parsed value in `[1,100]`
is used as given; and the repository's own clamp never alters a page size
the handler produced. -/
theorem handleList_limit_fallback :
    (∀ s, goAtoi s = none → handleListLimit s = 20) ∧
    (∀ s l, goAtoi s = some l → l < 1 ∨ l > 100 → handleListLimit s = 20) ∧
    (∀ s l, goAtoi s = some l → 1 ≤ l → l ≤ 100 → handleListLimit s = l) ∧
    (∀ s, repoEffectiveLimit (handleListLimit s) = handleListLimit s) := by
  have hempty : goAtoi "" = none := rfl
  refine ⟨?_, ?_, ?_, ?_⟩
  · intro s h
    unfold handleListLimit
    by_cases hs : s = ""
    · rw [if_pos hs]
    · rw [if_neg hs, h]
  · intro s l h hrange
    unfold handleListLimit
    by_cases hs : s = ""
    · subst hs; rw [hempty] at h; cases h
    · rw [if_neg hs, h]
      simp only []
      rw [if_neg (by omega)]
  · intro s l h h1 h100
    unfold handleListLimit
    by_cases hs : s = ""
    · subst hs; rw [hempty] at h; cases h
    · rw [if_neg hs, h]
      simp only []
      rw [if_pos ⟨by omega, h100⟩]
  · intro s
    have hb : 0 < handleListLimit s ∧ handleListLimit s ≤ 100 := by
      unfold handleListLimit
      repeat' split
      all_goals omega
    unfold repoEffectiveLimit
    rw [if_neg (by omega)]

/-- Closed instance of the C8 theorem: non-numeric, zero and out-of-range
limits fall back to 20 (101 is not clamped to 100); 50 is used as given;
the repository clamp keeps the handler's value. -/
theorem handleList_limit_fallback_witness :
    handleListLimit "abc" = 20 ∧ handleListLimit "0" = 20 ∧
    handleListLimit "101" = 20 ∧ handleListLimit "50" = 50 ∧
    repoEffectiveLimit (handleListLimit "101") = handleListLimit "101" :=
  ⟨handleList_limit_fallback.1 "abc" (by decide),
    handleList_limit_fallback.2.1 "0" 0 (by decide) (Or.inl (by decide)),
    handleList_limit_fallback.2.1 "101" 101 (by decide) (Or.inr (by decide)),
    handleList_limit_fallback.2.2.1 "50" 50 (by decide) (by decide) (by decide),
    handleList_limit_fallback.2.2.2 "101"⟩

/-- C10: every `List` call that returns without error returns a non-`nil`
`Todos` slice (`some _` in the model, which serializes as a JSON array);
in particular an empty result page comes back as `some []` — serialized
`[]`, never `null` — thanks to the final `if todos == nil` replacement. -/
theorem list_result_never_nil :
    (∀ (db : List Todo) (p : TodoListParams), ∃ l, (repoList db p).todos = some l) ∧
    (∀ (db : List Todo) (p : TodoListParams),
      sqlListTodos db p.userID p.status p.cursor
        ((repoEffectiveLimit p.limit + 1).toNat) = [] →
      (repoList db p).todos = some []) := by
  constructor
  · intro db p
    simp only [repoList]
    split
    · exact ⟨_, rfl⟩
    · split
      · exact ⟨_, rfl⟩
      · exact ⟨_, rfl⟩
  · intro db p h
    simp only [repoList]
    rw [h]
    rw [if_neg (by simp)]
    simp

/-- Closed instance of the C10 theorem: on an empty table the result page
is `some []`, not `none`. -/
theorem list_result_never_nil_witness :
    (∃ l, (repoList [] { userID := "u1", status := none, cursor := "", limit := 20 }).todos
        = some l) ∧
    (repoList [] { userID := "u1", status := none, cursor := "", limit := 20 }).todos
        = some [] :=
  ⟨list_result_never_nil.1 [] { userID := "u1", status := none, cursor := "", limit := 20 },
    list_result_never_nil.2 [] { userID := "u1", status := none, cursor := "", limit := 20 }
      (by decide)⟩
